import Mathlib

/-!
Verification development for the `dev-release` repository: a shallow
embedding in Lean 4 of the Jira-to-GitHub-issue automation.

Sources embedded here:
* `src/issue_creator/github_client.py` — `severity_label`,
  `build_issue_labels`, `create_issue_with_gh`
* `src/issue_creator/utils.py` — `SafeDict`
* `src/issue_creator/upload_attachments_to_branch_and_comment.py` —
  `sanitize_filename`, the per-file repo path
* `src/main.py` — `upload_attachment_to_repo_and_comment`,
  `create_branch_and_upload_via_api`, the `create_issue_from_jira`
  orchestration (issue-handle normalization, env validation prefix)

External effects (GitHub API calls, subprocess invocations, local file
reads, environment variables) are modelled by explicit oracle structures
whose fields give the outcome of each call the Python code makes, in the
order the code makes them.  Python floats are modelled as rationals.
-/

namespace DevRelease

/-! ## String helpers (Python `in`, `os.path.basename`) -/

/-- Prefix test on char lists: `startsWithL needle hay` holds when `needle` is a prefix of `hay`. -/
def startsWithL : List Char → List Char → Bool
  | [], _ => true
  | _ :: _, [] => false
  | a :: as, b :: bs => a == b && startsWithL as bs

/-- Substring test on char lists: `hasSubstrL needle hay` holds when `needle` occurs contiguously in `hay`. -/
def hasSubstrL (needle : List Char) : List Char → Bool
  | [] => startsWithL needle []
  | c :: t => startsWithL needle (c :: t) || hasSubstrL needle t

/-- Python's `needle in hay` on strings. -/
def containsSub (hay needle : String) : Bool :=
  hasSubstrL needle.data hay.data

/-- Python's `s.startswith(p)` on strings. -/
def strStarts (s p : String) : Bool :=
  startsWithL p.data s.data

/-- Python's `str.lower()` (ASCII reading). -/
def pyLower (s : String) : String :=
  String.mk (s.data.map Char.toLower)

/-- Python's `os.path.basename` on POSIX: text after the last `/`. -/
def basename (p : String) : String :=
  String.mk ((p.data.reverse.takeWhile (fun c => c != '/')).reverse)

/-! ## Severity classifier — `github_client.severity_label` -/

/-- A raw CVSS score value as the dynamically-typed Python code receives it:
a `None`, a float (modelled as a rational), or a string together with the
outcome of Python's `float(s)` on it (`none` when `float` raises). -/
inductive RawScore
  | pyNone
  | pyFloat (q : ℚ)
  | pyStr (s : String) (parsed : Option ℚ)

/-- The `score` computed at the top of `severity_label`:
`float(cvss_raw) if cvss_raw not in ("N/A", None, "") else 0.0`, with
`TypeError`/`ValueError` from the conversion caught and replaced by `0.0`. -/
def toScore : RawScore → ℚ
  | .pyNone => 0
  | .pyFloat q => q
  | .pyStr s parsed => if s = "N/A" ∨ s = "" then 0 else parsed.getD 0

/-- Model of `github_client.severity_label`. -/
def severity_label (cvss_raw : RawScore) : String :=
  if toScore cvss_raw ≥ 9 then "severity:critical"
  else if toScore cvss_raw ≥ 7 then "severity:high"
  else if toScore cvss_raw ≥ 4 then "severity:medium"
  else "severity:low"

/-! ## Label builder — `github_client.build_issue_labels` -/

/-- The dedup loop of `build_issue_labels`: keep the first occurrence of
each non-empty (truthy) label, tracking the `seen` set as a list. -/
def dedupeKeepFirst (seen : List String) : List String → List String
  | [] => []
  | l :: ls =>
    if l ≠ "" ∧ l ∉ seen then l :: dedupeKeepFirst (l :: seen) ls
    else dedupeKeepFirst seen ls

/-- Model of `github_client.build_issue_labels`: extras (empty list when
falsy), then `"vulnerability"`, then the severity label, deduplicated. -/
def build_issue_labels (score : RawScore) (extra_labels : List String) : List String :=
  dedupeKeepFirst [] (extra_labels ++ ["vulnerability", severity_label score])

/-! ## Filename sanitizer — `upload_attachments_to_branch_and_comment.sanitize_filename` -/

/-- The character filter of `sanitize_filename`: ASCII reading of Python's
`ch.isalnum() or ch in "._-"`. -/
def keepChar (ch : Char) : Bool :=
  ch.isAlphanum || ch == '.' || ch == '_' || ch == '-'

/-- The two locals of `sanitize_filename`: `s1` replaces each space by an
underscore, `s2` keeps only alphanumerics and the chars `.`, `_`, `-`. -/
def sanitizeCore (name : String) : List Char :=
  (name.data.map (fun ch => if ch = ' ' then '_' else ch)).filter keepChar

/-- Model of `sanitize_filename`: replace each space by an underscore,
keep only alphanumerics and the chars `.`, `_`, `-`, and fall back to
the literal `"file"` when nothing is left (`return s or "file"`). -/
def sanitize_filename (name : String) : String :=
  if sanitizeCore name = [] then "file" else String.mk (sanitizeCore name)

/-- The repo path the standalone script writes each file to
(`upload_attachments_to_branch_and_comment.main`):
`attachments/<JIRA_ISSUE_KEY>/<sanitize_filename(fpath.name)>`. -/
def scriptRepoPath (jiraKey fname : String) : String :=
  "attachments/" ++ jiraKey ++ "/" ++ sanitize_filename fname

/-- The target path used by `main.upload_attachment_to_repo_and_comment`
(lines 143–145): `attachments/<jira_key>/<os.path.basename(filepath)>` —
no sanitization. -/
def mainTargetPath (jiraKey filepath : String) : String :=
  "attachments/" ++ jiraKey ++ "/" ++ basename filepath

/-! ## Template rendering — `utils.SafeDict` with `str.format_map`

A template is modelled in parsed form: a list of literal segments and
named placeholders (what Python's `str.format_map` machinery produces
from the template text).  The field mapping is a partial map from
placeholder names to values; `SafeDict.__missing__` supplies `"N/A"` for
every absent key. -/

/-- One segment of a parsed format template. -/
inductive Tok
  | lit (s : String)
  | ph (key : String)

/-- Key lookup through a `SafeDict`: a present key gives its value, an
absent key hits `__missing__` and gives `"N/A"`. -/
def safeDictGet (m : String → Option String) (key : String) : String :=
  (m key).getD "N/A"

/-- Model of `template.format_map(SafeDict(...))`: substitute every
placeholder, concatenating the segments in order. -/
def format_map (m : String → Option String) : List Tok → String
  | [] => ""
  | .lit s :: ts => s ++ format_map m ts
  | .ph k :: ts => safeDictGet m k ++ format_map m ts

/-! ## `main.create_issue_from_jira` — env-validation prefix (lines 285–319)

The prefix reads `JIRA_ISSUE_KEY`, `DRY_RUN`, `GH_PAT_AGENT` and
`GITHUB_REPOSITORY` from the environment.  `os.getenv` yields `none` for
an unset variable.  The diagnostic prints at lines 311–312 concatenate
the token and repo name into strings with `+`, which raises `TypeError`
when the value is Python `None`. -/

/-- The environment variables `create_issue_from_jira` reads up front. -/
structure JiraEnv where
  jiraIssueKey : Option String
  dryRun : Option String
  ghPatAgent : Option String
  githubRepository : Option String

/-- How far the prefix of `create_issue_from_jira` gets. -/
inductive JiraStartOutcome
  | exitMissingKey
  | dryRunReturn
  | raisedTypeError
  | exitMissingToken
  | exitMissingRepo
  | continues (token repoName : String)
  deriving DecidableEq

/-- The validation prefix of `create_issue_from_jira` (main.py 285–319),
up to the point where a token and repository name are in hand. -/
def create_issue_from_jira_start (env : JiraEnv) : JiraStartOutcome :=
  match env.jiraIssueKey with
  | none => .exitMissingKey
  | some key =>
    if key = "" then .exitMissingKey
    else if pyLower (env.dryRun.getD "false") = "true" then .dryRunReturn
    else
      match env.ghPatAgent with
      | none => .raisedTypeError
      | some token =>
        match env.githubRepository with
        | none => .raisedTypeError
        | some repoName =>
          if token = "" then .exitMissingToken
          else if repoName = "" then .exitMissingRepo
          else .continues token repoName

/-! ## Issue publisher — `github_client.create_issue_with_gh` and the
issue-handle normalization in `main.create_issue_from_jira` (402–432) -/

/-- A dynamically-typed Python value as returned by
`create_issue_with_gh` or inspected by the caller. -/
inductive PyValue
  | vIssue (number : Nat)
  | vTrue
  | vFalse
  | vNone
  | vStr (s : String)
  deriving DecidableEq

/-- Python truthiness of a `PyValue` (an issue object is truthy). -/
def pyTruthy : PyValue → Bool
  | .vIssue _ => true
  | .vTrue => true
  | .vFalse => false
  | .vNone => false
  | .vStr s => s ≠ ""

/-- Outcomes of the external calls `create_issue_with_gh` makes:
`repo_obj.create_issue` via PyGithub, then `gh auth status` and
`gh issue create` via subprocess. -/
structure PublishEnv where
  /-- Whether `repo_obj is not None` at the call site. -/
  repoObjGiven : Bool
  /-- Whether `Github is not None`: the optional PyGithub import succeeded. -/
  ghAvail : Bool
  /-- Outcome of `repo_obj.create_issue(...)`: the created issue's number,
  or the exception message. -/
  createIssueViaPyGithub : Except String Nat
  /-- Return code of `gh auth status`. -/
  authCheckRc : Nat
  /-- Return code of `gh issue create` (its stdout is printed, and holds
  the created issue's URL on success). -/
  cliCreateRc : Nat
  cliStdout : String

/-- The `gh` CLI fallback path of `create_issue_with_gh` (lines 78–97):
returns `False` when `gh auth status` fails, `True` when `gh issue
create` exits 0, `False` otherwise.  It never returns the output text. -/
def ghCliPath (env : PublishEnv) : PyValue :=
  if env.authCheckRc ≠ 0 then .vFalse
  else if env.cliCreateRc = 0 then .vTrue
  else .vFalse

/-- Model of `github_client.create_issue_with_gh`: PyGithub primary
transport when a repo object is supplied and the import succeeded, CLI
fallback otherwise or on exception. -/
def create_issue_with_gh (env : PublishEnv) : PyValue :=
  if env.repoObjGiven ∧ env.ghAvail then
    match env.createIssueViaPyGithub with
    | .ok n => .vIssue n
    | .error _ => ghCliPath env
  else ghCliPath env

/-- Longest leading digit run of a char list, as a number (none if the
list does not start with a digit). -/
def leadingNat (l : List Char) : Option Nat :=
  let ds := l.takeWhile Char.isDigit
  if ds = [] then none
  else some (ds.foldl (fun acc c => acc * 10 + (c.toNat - 48)) 0)

/-- Model of `re.search(r"/issues/(\d+)", s)`: the digits following the
first occurrence of `/issues/` that is immediately followed by a digit. -/
def extractIssueNumber (s : String) : Option Nat :=
  go s.data
where
  go : List Char → Option Nat
    | [] => none
    | c :: t =>
      if startsWithL "/issues/".data (c :: t) then
        match leadingNat ((c :: t).drop 8) with
        | some n => some n
        | none => go t
      else go t

/-- The normalization step in `create_issue_from_jira` (main.py 402–418):
an object with a `number` attribute is used directly; a string is parsed
for `/issues/<n>` and the issue re-fetched through PyGithub (`fetch n`
gives the fetched issue number, `none` on exception); anything else
yields no issue handle. -/
def normalizeCreated (created : PyValue) (fetch : Nat → Option Nat) : Option Nat :=
  match created with
  | .vIssue n => some n
  | .vStr s =>
    match extractIssueNumber s with
    | some n => fetch n
    | none => none
  | _ => none

/-- The attachment dispatch in `create_issue_from_jira` (main.py
420–432): when `created` is truthy and an issue object was recovered,
every discovered file is uploaded; with no issue object the run skips
all attachments; when `created` is falsy the process exits 1. -/
def attachmentsAttempted (created : PyValue) (fetch : Nat → Option Nat)
    (downloaded : List String) : List String :=
  if pyTruthy created then
    match normalizeCreated created fetch with
    | some _ => downloaded
    | none => []
  else []

/-! ## REST fallback — `main.create_branch_and_upload_via_api` (60–128)

Every `requests` call is modelled by the HTTP status (and response text)
the server returns for it; the local file read is an `Except`.  The
returned trace records which HTTP requests the function issues, so that
theorems can speak about which calls do and do not happen. -/

/-- One HTTP request the REST fallback could issue. `getBranchCheck`
stands for a branch-existence confirmation request; the source never
issues one, and the trace lets theorems state that. -/
inductive RestCall
  | getRepo
  | getDefaultRef
  | postCreateRef
  | putContents
  | getBranchCheck
  deriving DecidableEq

/-- Outcomes of the external calls `create_branch_and_upload_via_api`
makes, in source order. -/
structure RestEnv where
  /-- Status of `GET /repos/{owner}/{repo}`. -/
  repoInfoStatus : Nat
  /-- The `default_branch` field of the repo-info response. -/
  defaultBranch : String
  /-- Status of `GET .../git/refs/heads/{default_branch}`. -/
  refGetStatus : Nat
  /-- The `object.sha` of the ref response. -/
  refSha : String
  /-- Status of `POST .../git/refs`. -/
  createRefStatus : Nat
  /-- Response text of the ref-creation request. -/
  createRefText : String
  /-- Outcome of `open(local_filepath, "rb").read()`. -/
  readLocal : Except String String
  /-- Status of `PUT .../contents/{target_path}`. -/
  putStatus : Nat

/-- Model of `main.create_branch_and_upload_via_api`: returns the boolean
result together with the trace of HTTP requests issued. -/
def create_branch_and_upload_via_api (env : RestEnv) : Bool × List RestCall :=
  if env.repoInfoStatus ≠ 200 then (false, [.getRepo])
  else if env.refGetStatus ≠ 200 then (false, [.getRepo, .getDefaultRef])
  else if ¬(env.createRefStatus = 200 ∨ env.createRefStatus = 201) ∧
      ¬(env.createRefStatus = 422 ∧
        containsSub env.createRefText "Reference already exists" = true) then
    (false, [.getRepo, .getDefaultRef, .postCreateRef])
  else
    match env.readLocal with
    | .error _ => (false, [.getRepo, .getDefaultRef, .postCreateRef])
    | .ok _ =>
      (decide (env.putStatus = 200 ∨ env.putStatus = 201),
       [.getRepo, .getDefaultRef, .postCreateRef, .putContents])

/-! ## Attachment uploader — `main.upload_attachment_to_repo_and_comment` (130–281)

Each PyGithub call's outcome is a `GhCall`: success, a `GithubException`
(with `status` and message), or some other exception.  Comment posting
(`issue.create_comment`) succeeds or fails per body via `commentOk`.
The result records the boolean return value, every comment the function
attempts (with its delivery outcome), and whether the REST fallback ran. -/

/-- Outcome of one PyGithub call. -/
inductive GhCall (α : Type)
  | ok (a : α)
  | ghExc (status : Option Nat) (msg : String)
  | exn (msg : String)
  deriving DecidableEq

/-- Outcomes of the external calls `upload_attachment_to_repo_and_comment`
makes, in source order, plus the ambient configuration it reads. -/
structure UploadEnv where
  /-- The module-level `ATTACHMENTS_BRANCH` value. -/
  attachmentsBranch : String
  /-- The `repo.full_name` of the repo object. -/
  repoFullName : String
  /-- The `repo.default_branch` name. -/
  defaultBranchName : String
  /-- Outcome of the first `repo.get_branch(branch_name)`. -/
  getBranchAttachments : GhCall Unit
  /-- Outcome of `repo.get_branch(repo.default_branch)`; `ok` carries the
  head commit sha. -/
  getBranchDefault : GhCall String
  /-- Outcome of `repo.create_git_ref(ref, sha)`. -/
  createGitRef : GhCall Unit
  /-- Outcome of the confirmation `repo.get_branch(branch_name)` after a
  concurrent-create conflict. -/
  getBranchConfirm : GhCall Unit
  /-- Outcome of `open(filepath, "rb").read()`. -/
  readLocal : Except String String
  /-- Outcome of `repo.get_contents(target_path, ref=branch_name)`; `ok`
  carries the existing file's sha. -/
  getContents : GhCall String
  /-- Outcome of `repo.update_file(...)`. -/
  updateFile : GhCall Unit
  /-- Outcome of `repo.create_file(...)`. -/
  createFile : GhCall Unit
  /-- Whether `issue.create_comment(body)` succeeds, per body. -/
  commentOk : String → Bool
  /-- The value of `os.getenv("GH_PAT_AGENT")` at fallback time. -/
  ghPatAgent : Option String
  /-- Call outcomes for a REST-fallback invocation. -/
  rest : RestEnv

/-- How step 1 (ensure the attachments branch exists, lines 148–204)
ends: fall through to the file write (recording whether the
concurrent-create confirmation re-check ran and succeeded), return
`False` after the fixed default-branch failure comment, or propagate an
exception to the outermost handler. -/
inductive BranchStep
  | proceed (confirmChecked : Bool)
  | failComment (body : String)
  | toOuter (excMsg : String)
  deriving DecidableEq

/-- Step 1 of the uploader: branch check, branch create, and the
`Reference already exists` conflict handling (main.py 148–204). -/
def ensureBranch (env : UploadEnv) : BranchStep :=
  match env.getBranchAttachments with
  | .ok _ => .proceed false
  | .exn m => .toOuter m
  | .ghExc status msg =>
    if status = some 404 then
      match env.getBranchDefault with
      | .ok _sha =>
        (match env.createGitRef with
         | .ok _ => .proceed false
         | .exn m => .toOuter m
         | .ghExc st2 msg2 =>
           if st2 = some 422 ∧
               (containsSub msg2 "Reference already exists" = true ∨
                containsSub (pyLower msg2) "reference already exists" = true) then
             match env.getBranchConfirm with
             | .ok _ => .proceed true
             | .ghExc _ m2 => .toOuter m2
             | .exn m2 => .toOuter m2
           else .toOuter msg2)
      | .ghExc _ _ =>
        .failComment ("**Attachment upload failed:** could not determine default branch '"
          ++ env.defaultBranchName ++ "' to create attachments branch.")
      | .exn m => .toOuter m
    else .toOuter msg

/-- How step 3 (create-or-update the file, lines 221–236) ends. -/
inductive WriteOutcome
  | okWrite
  | failedWrite (excMsg : String)
  deriving DecidableEq

/-- Step 3 of the uploader: `get_contents` then `update_file`, with
`create_file` on a 404 (main.py 221–236).  Any exception that escapes the
inner handler becomes `failedWrite` (the `e_create` handler). -/
def writeFile (env : UploadEnv) : WriteOutcome :=
  match env.getContents with
  | .ok _sha =>
    (match env.updateFile with
     | .ok _ => .okWrite
     | .ghExc st m =>
       if st = some 404 then
         (match env.createFile with
          | .ok _ => .okWrite
          | .ghExc _ m2 => .failedWrite m2
          | .exn m2 => .failedWrite m2)
       else .failedWrite m
     | .exn m => .failedWrite m)
  | .ghExc st m =>
    if st = some 404 then
      (match env.createFile with
       | .ok _ => .okWrite
       | .ghExc _ m2 => .failedWrite m2
       | .exn m2 => .failedWrite m2)
    else .failedWrite m
  | .exn m => .failedWrite m

/-- The comment body posted after a successful primary-transport upload
(main.py 266). -/
def successCommentBody (filename rawUrl : String) : String :=
  "**Attachment:** `" ++ filename ++ "`\n\n![" ++ filename ++ "](" ++ rawUrl ++ ")"

/-- The comment body posted after a successful REST-fallback upload
(main.py 250). -/
def fallbackSuccessCommentBody (filename rawUrl : String) : String :=
  "**Attachment:** `" ++ filename ++ "` (uploaded via REST fallback)\n\n![" ++ filename
    ++ "](" ++ rawUrl ++ ")"

/-- The failure comment posted when no upload attempt succeeded
(main.py 259): names the file, the error, and the local path. -/
def uploadFailedCommentBody (filename excMsg filepath : String) : String :=
  "**Attachment:** `" ++ filename ++ "` (failed to upload to repo: " ++ excMsg
    ++ "). Local path: `" ++ filepath ++ "`"

/-- The comment posted when the local file cannot be read (main.py 215). -/
def readFailedCommentBody (filename filepath excMsg : String) : String :=
  "**Attachment failed to read:** `" ++ filename ++ "` — saved on runner at `"
    ++ filepath ++ "` (read error: " ++ excMsg ++ ")"

/-- The comment posted by the outermost exception handler (main.py 278). -/
def outerFailureCommentBody (filename excMsg : String) : String :=
  "**Attachment:** `" ++ filename ++ "` (unexpected failure: " ++ excMsg ++ ")"

/-- The `raw.githubusercontent.com` URL composed at main.py 247/265. -/
def rawUrlFor (env : UploadEnv) (targetPath : String) : String :=
  "https://raw.githubusercontent.com/" ++ env.repoFullName ++ "/"
    ++ env.attachmentsBranch ++ "/" ++ targetPath

/-- What one call to `upload_attachment_to_repo_and_comment` did: its
boolean return value, every comment attempted (body, delivered), whether
the REST fallback was invoked and with which requests, and whether the
branch-conflict confirmation re-check ran and succeeded. -/
structure UploadResult where
  ok : Bool
  comments : List (String × Bool)
  restInvoked : Bool
  restCalls : List RestCall
  confirmChecked : Bool
  deriving DecidableEq

/-- The `e_create` handler (main.py 237–262): gate on a truthy
`GH_PAT_AGENT` and an `owner/repo`-shaped full name, run the REST
fallback, and on fallback failure (or a closed gate) post the
local-path failure comment. -/
def handleWriteFailure (env : UploadEnv) (excMsg filename filepath targetPath : String)
    (confirm : Bool) : UploadResult :=
  let failBody := uploadFailedCommentBody filename excMsg filepath
  let gate := (match env.ghPatAgent with
    | some t => t != ""
    | none => false) && containsSub env.repoFullName "/"
  if gate then
    let r := create_branch_and_upload_via_api env.rest
    if r.1 then
      let body := fallbackSuccessCommentBody filename (rawUrlFor env targetPath)
      { ok := env.commentOk body, comments := [(body, env.commentOk body)],
        restInvoked := true, restCalls := r.2, confirmChecked := confirm }
    else
      { ok := false, comments := [(failBody, env.commentOk failBody)],
        restInvoked := true, restCalls := r.2, confirmChecked := confirm }
  else
    { ok := false, comments := [(failBody, env.commentOk failBody)],
      restInvoked := false, restCalls := [], confirmChecked := confirm }

/-- Model of `main.upload_attachment_to_repo_and_comment`. -/
def upload_attachment_to_repo_and_comment (env : UploadEnv)
    (filepath jira_key : String) : UploadResult :=
  let filename := basename filepath
  let targetPath := mainTargetPath jira_key filepath
  match ensureBranch env with
  | .failComment body =>
    { ok := false, comments := [(body, env.commentOk body)],
      restInvoked := false, restCalls := [], confirmChecked := false }
  | .toOuter m =>
    let body := outerFailureCommentBody filename m
    { ok := false, comments := [(body, env.commentOk body)],
      restInvoked := false, restCalls := [], confirmChecked := false }
  | .proceed confirm =>
    match env.readLocal with
    | .error e =>
      let body := readFailedCommentBody filename filepath e
      { ok := false, comments := [(body, env.commentOk body)],
        restInvoked := false, restCalls := [], confirmChecked := confirm }
    | .ok _content =>
      match writeFile env with
      | .okWrite =>
        let body := successCommentBody filename (rawUrlFor env targetPath)
        { ok := env.commentOk body, comments := [(body, env.commentOk body)],
          restInvoked := false, restCalls := [], confirmChecked := confirm }
      | .failedWrite e =>
        handleWriteFailure env e filename filepath targetPath confirm

/-! ## Concrete call-outcome environments used to evaluate the model -/

/-- A REST environment for runs that never reach the REST fallback. -/
def restUnused : RestEnv :=
  { repoInfoStatus := 0, defaultBranch := "", refGetStatus := 0, refSha := "",
    createRefStatus := 0, createRefText := "", readLocal := .error "unused",
    putStatus := 0 }

/-- A REST environment whose very first request fails. -/
def restAllFail : RestEnv :=
  { repoInfoStatus := 500, defaultBranch := "", refGetStatus := 0, refSha := "",
    createRefStatus := 0, createRefText := "", readLocal := .error "unused",
    putStatus := 0 }

/-- A REST environment where branch creation hits a `422 Reference
already exists` conflict and the content upload then succeeds. -/
def restConflictOk : RestEnv :=
  { repoInfoStatus := 200, defaultBranch := "main", refGetStatus := 200,
    refSha := "abc123", createRefStatus := 422,
    createRefText := "Reference already exists", readLocal := .ok "payload",
    putStatus := 201 }

/-- An upload run whose first branch check raises a non-GithubException. -/
def uploadEnvFirstCallRaises : UploadEnv :=
  { attachmentsBranch := "issue-attachments", repoFullName := "owner/repo",
    defaultBranchName := "main", getBranchAttachments := .exn "connection reset",
    getBranchDefault := .ok "sha0", createGitRef := .ok (),
    getBranchConfirm := .ok (), readLocal := .ok "bytes",
    getContents := .ok "sha1", updateFile := .ok (), createFile := .ok (),
    commentOk := fun _ => true, ghPatAgent := some "tok", rest := restUnused }

/-- An upload run where the primary-transport file write fails while
`GH_PAT_AGENT` is unset. -/
def uploadEnvNoToken : UploadEnv :=
  { attachmentsBranch := "issue-attachments", repoFullName := "owner/repo",
    defaultBranchName := "main", getBranchAttachments := .ok (),
    getBranchDefault := .ok "sha0", createGitRef := .ok (),
    getBranchConfirm := .ok (), readLocal := .ok "bytes",
    getContents := .ghExc (some 404) "Not Found", updateFile := .ok (),
    createFile := .ghExc (some 500) "server error",
    commentOk := fun _ => true, ghPatAgent := none, rest := restUnused }

/-- An upload run where the primary-transport file write fails with a
token available, and the REST fallback then also fails. -/
def uploadEnvWriteFailRestFail : UploadEnv :=
  { attachmentsBranch := "issue-attachments", repoFullName := "owner/repo",
    defaultBranchName := "main", getBranchAttachments := .ok (),
    getBranchDefault := .ok "sha0", createGitRef := .ok (),
    getBranchConfirm := .ok (), readLocal := .ok "bytes",
    getContents := .ghExc (some 404) "Not Found", updateFile := .ok (),
    createFile := .ghExc (some 500) "server error",
    commentOk := fun _ => true, ghPatAgent := some "tok", rest := restAllFail }

/-- An upload run that hits the concurrent branch-creation conflict, whose
confirmation re-check and file write then succeed. -/
def uploadEnvConflict : UploadEnv :=
  { attachmentsBranch := "issue-attachments", repoFullName := "owner/repo",
    defaultBranchName := "main",
    getBranchAttachments := .ghExc (some 404) "Branch not found",
    getBranchDefault := .ok "abc123",
    createGitRef := .ghExc (some 422) "Reference already exists",
    getBranchConfirm := .ok (), readLocal := .ok "bytes",
    getContents := .ghExc (some 404) "Not Found", updateFile := .ok (),
    createFile := .ok (), commentOk := fun _ => true, ghPatAgent := some "tok",
    rest := restConflictOk }

/-- A publish run where PyGithub creation raises and the `gh` CLI then
creates the issue, printing its URL. -/
def publishCliOnly : PublishEnv :=
  { repoObjGiven := true, ghAvail := true,
    createIssueViaPyGithub := .error "API down", authCheckRc := 0,
    cliCreateRc := 0, cliStdout := "https://github.com/owner/repo/issues/42" }

/-- A process environment with a Jira key and repository set, dry-run off,
and `GH_PAT_AGENT` unset. -/
def jiraEnvNoToken : JiraEnv :=
  { jiraIssueKey := some "SCRUM-7", dryRun := none, ghPatAgent := none,
    githubRepository := some "owner/repo" }

/-! ## Helper lemmas -/

theorem startsWithL_self_append (n rest : List Char) : startsWithL n (n ++ rest) = true := by
  induction n with
  | nil => rfl
  | cons a as ih => simp [startsWithL, ih]

theorem startsWithL_refl (n : List Char) : startsWithL n n = true := by
  have h := startsWithL_self_append n []
  rwa [List.append_nil] at h

theorem startsWithL_extend (n : List Char) :
    ∀ (h post : List Char), startsWithL n h = true → startsWithL n (h ++ post) = true := by
  induction n with
  | nil => intro h post _; rfl
  | cons a as ih =>
    intro h post hs
    cases h with
    | nil => exact absurd hs (by simp [startsWithL])
    | cons b bs =>
      simp only [startsWithL, Bool.and_eq_true, beq_iff_eq] at hs
      simp [List.cons_append, startsWithL, hs.1, ih bs post hs.2]

theorem hasSubstrL_nil_needle : ∀ (h : List Char), hasSubstrL [] h = true := by
  intro h
  cases h with
  | nil => rfl
  | cons c t => simp [hasSubstrL, startsWithL]

theorem hasSubstrL_self (d : List Char) : hasSubstrL d d = true := by
  cases d with
  | nil => rfl
  | cons c t => simp [hasSubstrL, startsWithL_refl]

theorem hasSubstrL_prepend (n : List Char) :
    ∀ (pre h : List Char), hasSubstrL n h = true → hasSubstrL n (pre ++ h) = true := by
  intro pre
  induction pre with
  | nil => intro h hh; simpa using hh
  | cons c t ih =>
    intro h hh
    simp only [List.cons_append, hasSubstrL, Bool.or_eq_true]
    exact Or.inr (ih h hh)

theorem hasSubstrL_postpend (n : List Char) :
    ∀ (h post : List Char), hasSubstrL n h = true → hasSubstrL n (h ++ post) = true := by
  intro h
  induction h with
  | nil =>
    intro post hh
    have hn : n = [] := by
      cases n with
      | nil => rfl
      | cons a as => exact absurd hh (by simp [hasSubstrL, startsWithL])
    subst hn
    simpa using hasSubstrL_nil_needle post
  | cons c t ih =>
    intro post hh
    simp only [hasSubstrL, Bool.or_eq_true] at hh
    simp only [List.cons_append, hasSubstrL, Bool.or_eq_true]
    rcases hh with hh | hh
    · exact Or.inl (by simpa [List.cons_append] using startsWithL_extend n (c :: t) post hh)
    · exact Or.inr (ih post hh)

theorem containsSub_self (n : String) : containsSub n n = true :=
  hasSubstrL_self n.data

theorem containsSub_append_of_left (x y n : String) (h : containsSub x n = true) :
    containsSub (x ++ y) n = true := by
  unfold containsSub at *
  rw [String.data_append]
  exact hasSubstrL_postpend n.data _ _ h

theorem containsSub_append_of_right (x y n : String) (h : containsSub y n = true) :
    containsSub (x ++ y) n = true := by
  unfold containsSub at *
  rw [String.data_append]
  exact hasSubstrL_prepend n.data _ _ h

theorem strAppend_assoc (a b c : String) : a ++ b ++ c = a ++ (b ++ c) := by
  apply String.ext
  simp [String.data_append]

theorem map_fix_eq_self {α : Type} (f : α → α) :
    ∀ (l : List α), (∀ c ∈ l, f c = c) → l.map f = l := by
  intro l h
  induction l with
  | nil => rfl
  | cons a t ih =>
    rw [List.map_cons, h a (List.mem_cons_self a t),
      ih (fun c hc => h c (List.mem_cons_of_mem _ hc))]

theorem mem_dedupeKeepFirst :
    ∀ (xs seen : List String) (a : String),
      a ∈ dedupeKeepFirst seen xs ↔ a ∈ xs ∧ a ∉ seen ∧ a ≠ "" := by
  intro xs
  induction xs with
  | nil => intro seen a; simp [dedupeKeepFirst]
  | cons l ls ih =>
    intro seen a
    unfold dedupeKeepFirst
    split_ifs with hcond
    · obtain ⟨hlne, hlseen⟩ := hcond
      rw [List.mem_cons, ih]
      constructor
      · rintro (rfl | ⟨hmem, hseen, hne⟩)
        · exact ⟨List.mem_cons_self _ _, hlseen, hlne⟩
        · exact ⟨List.mem_cons_of_mem _ hmem,
            fun hs => hseen (List.mem_cons_of_mem _ hs), hne⟩
      · rintro ⟨hmem, hseen, hne⟩
        rcases List.mem_cons.mp hmem with rfl | hmem2
        · exact Or.inl rfl
        · by_cases hal : a = l
          · exact Or.inl hal
          · refine Or.inr ⟨hmem2, ?_, hne⟩
            intro hs
            rcases List.mem_cons.mp hs with hs | hs
            · exact hal hs
            · exact hseen hs
    · rw [ih]
      constructor
      · rintro ⟨hmem, hseen, hne⟩
        exact ⟨List.mem_cons_of_mem _ hmem, hseen, hne⟩
      · rintro ⟨hmem, hseen, hne⟩
        rcases List.mem_cons.mp hmem with rfl | hmem2
        · exfalso
          rcases not_and_or.mp hcond with hc | hc
          · exact hne (not_not.mp hc)
          · exact hseen (not_not.mp hc)
        · exact ⟨hmem2, hseen, hne⟩

theorem nodup_dedupeKeepFirst : ∀ (xs seen : List String), (dedupeKeepFirst seen xs).Nodup := by
  intro xs
  induction xs with
  | nil => intro seen; simp [dedupeKeepFirst]
  | cons l ls ih =>
    intro seen
    unfold dedupeKeepFirst
    split_ifs with hcond
    · refine List.nodup_cons.mpr ⟨?_, ih _⟩
      intro hmem
      exact ((mem_dedupeKeepFirst ls (l :: seen) l).mp hmem).2.1 (List.mem_cons_self _ _)
    · exact ih _

theorem sublist_dedupeKeepFirst :
    ∀ (xs seen : List String), List.Sublist (dedupeKeepFirst seen xs) xs := by
  intro xs
  induction xs with
  | nil => intro seen; simp [dedupeKeepFirst]
  | cons l ls ih =>
    intro seen
    unfold dedupeKeepFirst
    split_ifs with hcond
    · exact List.Sublist.cons₂ _ (ih _)
    · exact List.Sublist.cons _ (ih _)

theorem eq_singleton_of_nodup_of_mem_iff {α : Type} (F : List α) (s : α)
    (hn : F.Nodup) (hm : ∀ a, a ∈ F ↔ a = s) : F = [s] := by
  cases F with
  | nil => exact absurd ((hm s).mpr rfl) (List.not_mem_nil s)
  | cons a t =>
    have ha : a = s := (hm a).mp (List.mem_cons_self a t)
    subst ha
    have ht : t = [] := by
      cases t with
      | nil => rfl
      | cons b u =>
        have hb : b = a := (hm b).mp (List.mem_cons_of_mem _ (List.mem_cons_self b u))
        exfalso
        apply (List.nodup_cons.mp hn).1
        rw [← hb]
        exact List.mem_cons_self b u
    rw [ht]

theorem severity_label_starts (raw : RawScore) :
    strStarts (severity_label raw) "severity:" = true := by
  unfold severity_label
  split_ifs <;> decide

theorem severity_label_ne_empty (raw : RawScore) : severity_label raw ≠ "" := by
  unfold severity_label
  split_ifs <;> decide

theorem build_issue_labels_filter_severity (score : RawScore) (extra : List String)
    (hx : ∀ l ∈ extra, strStarts l "severity:" = false) :
    (build_issue_labels score extra).filter (fun l => strStarts l "severity:") =
      [severity_label score] := by
  apply eq_singleton_of_nodup_of_mem_iff
  · exact List.Nodup.filter _ (nodup_dedupeKeepFirst _ _)
  · intro a
    rw [List.mem_filter]
    constructor
    · rintro ⟨hmem, hp⟩
      obtain ⟨hin, -, hne⟩ := (mem_dedupeKeepFirst _ _ a).mp hmem
      rcases List.mem_append.mp hin with hin | hin
      · rw [hx a hin] at hp
        exact absurd hp (by decide)
      · rcases List.mem_cons.mp hin with rfl | hin
        · exact absurd hp (by decide)
        · exact List.mem_singleton.mp hin
    · rintro rfl
      refine ⟨?_, severity_label_starts score⟩
      apply (mem_dedupeKeepFirst _ _ _).mpr
      refine ⟨List.mem_append.mpr (Or.inr (by simp)), by simp, severity_label_ne_empty score⟩

theorem keepChar_not_space (c : Char) (hc : keepChar c = true) : c ≠ ' ' := by
  intro h
  subst h
  exact absurd hc (by decide)

theorem sanitizeCore_mk (l : List Char) (hl : ∀ c ∈ l, keepChar c = true) :
    sanitizeCore (String.mk l) = l := by
  unfold sanitizeCore
  have hdata : (String.mk l).data = l := rfl
  rw [hdata]
  have hmap : l.map (fun ch => if ch = ' ' then '_' else ch) = l := by
    apply map_fix_eq_self
    intro c hc
    simp [keepChar_not_space c (hl c hc)]
  rw [hmap, List.filter_eq_self.mpr hl]

theorem mem_sanitizeCore_keep (name : String) :
    ∀ c ∈ sanitizeCore name, keepChar c = true := by
  intro c hc
  unfold sanitizeCore at hc
  exact List.of_mem_filter hc

theorem sanitize_filename_mem_keep (name : String) :
    ∀ c ∈ (sanitize_filename name).data, keepChar c = true := by
  intro c hc
  unfold sanitize_filename at hc
  split_ifs at hc with h
  · have hc2 : c ∈ ['f', 'i', 'l', 'e'] := hc
    simp only [List.mem_cons, List.not_mem_nil, or_false] at hc2
    rcases hc2 with rfl | rfl | rfl | rfl <;> decide
  · exact mem_sanitizeCore_keep name c hc

theorem sanitize_filename_ne_empty (name : String) : sanitize_filename name ≠ "" := by
  unfold sanitize_filename
  split_ifs with h
  · decide
  · intro he
    apply h
    have hd : (String.mk (sanitizeCore name)).data = ("" : String).data := by rw [he]
    simpa using hd

theorem sanitize_filename_fix (name : String) :
    sanitize_filename (sanitize_filename name) = sanitize_filename name := by
  by_cases h : sanitizeCore name = []
  · have h1 : sanitize_filename name = "file" := by unfold sanitize_filename; simp [h]
    rw [h1]
    rfl
  · have h1 : sanitize_filename name = String.mk (sanitizeCore name) := by
      unfold sanitize_filename; simp [h]
    rw [h1]
    have hcore : sanitizeCore (String.mk (sanitizeCore name)) = sanitizeCore name :=
      sanitizeCore_mk _ (mem_sanitizeCore_keep name)
    unfold sanitize_filename
    rw [hcore]
    simp [h]

/-! ## Claim theorems -/

/-- C6: for every raw score value (numeric, string, absent, or
unparsable), `severity_label` returns `severity:critical` iff the parsed
score is at least 9, `severity:high` iff it lies in `[7, 9)`,
`severity:medium` iff it lies in `[4, 7)`, and `severity:low` otherwise;
absence (`None`) and parse failure are treated as score 0.  The function
is total, so it never raises. -/
theorem severity_label_thresholds (raw : RawScore) :
    (severity_label raw = "severity:critical" ↔ 9 ≤ toScore raw) ∧
    (severity_label raw = "severity:high" ↔ 7 ≤ toScore raw ∧ toScore raw < 9) ∧
    (severity_label raw = "severity:medium" ↔ 4 ≤ toScore raw ∧ toScore raw < 7) ∧
    (severity_label raw = "severity:low" ↔ toScore raw < 4) ∧
    toScore RawScore.pyNone = 0 ∧ (∀ s : String, toScore (RawScore.pyStr s none) = 0) := by
  have hstr : ∀ s : String, toScore (RawScore.pyStr s none) = 0 := by
    intro s
    simp only [toScore]
    split <;> rfl
  refine ⟨?_, ?_, ?_, ?_, rfl, hstr⟩ <;>
    (unfold severity_label
     split_ifs with h1 h2 h3 <;>
       (constructor <;> intro h <;>
         first
           | rfl
           | exact absurd h (by decide)
           | linarith
           | exact ⟨by linarith, by linarith⟩))

/-- C9: filename sanitization is idempotent and never returns the empty
string. -/
theorem sanitize_filename_idem (x : String) :
    sanitize_filename (sanitize_filename x) = sanitize_filename x ∧
    sanitize_filename x ≠ "" :=
  ⟨sanitize_filename_fix x, sanitize_filename_ne_empty x⟩

/-- C7 counterexample: when the caller-supplied extras already contain a
`severity:`-prefixed label and the score maps to a different severity,
the output carries two labels beginning with `severity:`, refuting the
claimed "exactly one". -/
theorem build_issue_labels_two_severity :
    build_issue_labels (RawScore.pyFloat 10) ["severity:low"] =
      ["severity:low", "vulnerability", "severity:critical"] ∧
    ((build_issue_labels (RawScore.pyFloat 10) ["severity:low"]).filter
        (fun l => strStarts l "severity:")).length = 2 := by
  constructor <;> rfl

/-- C7 (amended): `build_issue_labels` returns an order-preserving
selection of extras ++ ["vulnerability", severity label] whose members
are exactly the non-empty entries of that concatenation (first
occurrence kept), contains no duplicates, always contains
"vulnerability", and — provided no extra label itself begins with
`severity:` — contains exactly one label beginning with `severity:`,
namely the classifier's. -/
theorem build_issue_labels_spec (score : RawScore) (extra : List String) :
    List.Sublist (build_issue_labels score extra)
      (extra ++ ["vulnerability", severity_label score]) ∧
    (build_issue_labels score extra).Nodup ∧
    (∀ a, a ∈ build_issue_labels score extra ↔
      a ∈ extra ++ ["vulnerability", severity_label score] ∧ a ≠ "") ∧
    "vulnerability" ∈ build_issue_labels score extra ∧
    ((∀ l ∈ extra, strStarts l "severity:" = false) →
      (build_issue_labels score extra).filter (fun l => strStarts l "severity:") =
        [severity_label score]) := by
  refine ⟨sublist_dedupeKeepFirst _ _, nodup_dedupeKeepFirst _ _, ?_, ?_,
    build_issue_labels_filter_severity score extra⟩
  · intro a
    have h := mem_dedupeKeepFirst (extra ++ ["vulnerability", severity_label score]) [] a
    simpa [build_issue_labels] using h
  · show "vulnerability" ∈ dedupeKeepFirst [] (extra ++ ["vulnerability", severity_label score])
    apply (mem_dedupeKeepFirst _ _ _).mpr
    exact ⟨List.mem_append.mpr (Or.inr (by simp)), by simp, by decide⟩

/-- Witness for C7 (amended): concrete evaluation at score 5 with one
team extra. -/
theorem build_issue_labels_spec_witness :
    (∀ l ∈ ["team:backend"], strStarts l "severity:" = false) ∧
    (build_issue_labels (RawScore.pyFloat 5) ["team:backend"]).filter
      (fun l => strStarts l "severity:") = [severity_label (RawScore.pyFloat 5)] ∧
    "vulnerability" ∈ build_issue_labels (RawScore.pyFloat 5) ["team:backend"] := by
  have hx : ∀ l ∈ ["team:backend"], strStarts l "severity:" = false := by decide
  have h := build_issue_labels_spec (RawScore.pyFloat 5) ["team:backend"]
  exact ⟨hx, h.2.2.2.2 hx, h.2.2.2.1⟩

/-- C4 counterexample: `upload_attachment_to_repo_and_comment` in
`main.py` derives the repo path from the raw `os.path.basename` of the
local file, so a filename with a space stays unsanitized, differing from
the claimed `attachments/<key>/<sanitized-filename>` path. -/
theorem mainTargetPath_not_sanitized :
    mainTargetPath "SCRUM-9" "attachments/screen shot.png" =
      "attachments/SCRUM-9/screen shot.png" ∧
    sanitize_filename "screen shot.png" = "screen_shot.png" ∧
    mainTargetPath "SCRUM-9" "attachments/screen shot.png" ≠
      "attachments/SCRUM-9/" ++ sanitize_filename "screen shot.png" := by
  refine ⟨rfl, rfl, by decide⟩

/-- C4 (amended): the standalone script writes each attachment to
`attachments/<ticket-key>/<sanitized-filename>` with the described
sanitization (result non-empty, only alphanumerics and `.`/`_`/`-`, no
spaces); the uploader in `main.py` instead uses the raw basename of the
local path with no sanitization. -/
theorem attachment_paths_spec (jiraKey fname : String) :
    scriptRepoPath jiraKey fname =
      "attachments/" ++ jiraKey ++ "/" ++ sanitize_filename fname ∧
    sanitize_filename fname ≠ "" ∧
    (∀ c ∈ (sanitize_filename fname).data, keepChar c = true) ∧
    (∀ c ∈ (sanitize_filename fname).data, c ≠ ' ') ∧
    (∀ filepath, mainTargetPath jiraKey filepath =
      "attachments/" ++ jiraKey ++ "/" ++ basename filepath) := by
  refine ⟨rfl, sanitize_filename_ne_empty fname, sanitize_filename_mem_keep fname,
    ?_, fun _ => rfl⟩
  intro c hc
  exact keepChar_not_space c (sanitize_filename_mem_keep fname c hc)

/-- Witness for C4 (amended): concrete evaluation on a name with a space
and a disallowed character. -/
theorem attachment_paths_spec_witness :
    scriptRepoPath "SCRUM-9" "a b$.png" =
      "attachments/" ++ "SCRUM-9" ++ "/" ++ sanitize_filename "a b$.png" ∧
    sanitize_filename "a b$.png" ≠ "" ∧
    'b' ∈ (sanitize_filename "a b$.png").data ∧
    (∀ c ∈ (sanitize_filename "a b$.png").data, c ≠ ' ') := by
  have h := attachment_paths_spec "SCRUM-9" "a b$.png"
  exact ⟨h.1, h.2.1, by decide, h.2.2.2.1⟩

/-- C8: rendering a template through a `SafeDict` never fails, and every
placeholder whose key is absent from the mapping renders as the sentinel
`"N/A"` at its position in the output. -/
theorem format_map_missing_renders_na (m : String → Option String)
    (pre post : List Tok) (k : String) (hk : m k = none) :
    format_map m (pre ++ Tok.ph k :: post) =
      format_map m pre ++ "N/A" ++ format_map m post := by
  induction pre with
  | nil =>
    show safeDictGet m k ++ format_map m post = "" ++ "N/A" ++ format_map m post
    rw [safeDictGet, hk]
    rfl
  | cons t ts ih =>
    cases t with
    | lit s =>
      simp only [List.cons_append, List.append_eq, format_map]
      rw [ih, ← strAppend_assoc, ← strAppend_assoc]
    | ph k2 =>
      simp only [List.cons_append, List.append_eq, format_map]
      rw [ih, ← strAppend_assoc, ← strAppend_assoc]

/-- Witness for C8: a concrete template with an absent key renders the
sentinel in place. -/
theorem format_map_missing_renders_na_witness :
    (fun (_ : String) => (none : Option String)) "x" = none ∧
    format_map (fun _ => none) ([Tok.lit "Summary: "] ++ Tok.ph "x" :: [Tok.lit "!"]) =
      format_map (fun _ => none) [Tok.lit "Summary: "] ++ "N/A" ++
        format_map (fun _ => none) [Tok.lit "!"] :=
  ⟨rfl, format_map_missing_renders_na (fun _ => none) [Tok.lit "Summary: "]
    [Tok.lit "!"] "x" rfl⟩

/-- C10: with dry-run off, a non-empty Jira key, and `GH_PAT_AGENT`
unset, `create_issue_from_jira` raises `TypeError` at the diagnostic
print that concatenates the `None` token, before its explicit
missing-token check; moreover the branch printing
"Error: GH_PAT_AGENT environment variable not set" is reachable only
when `GH_PAT_AGENT` is set to the empty string — never when it is
unset. -/
theorem missing_token_raises_before_check (env : JiraEnv) (key : String)
    (hk : env.jiraIssueKey = some key) (hk2 : key ≠ "")
    (hd : pyLower (env.dryRun.getD "false") ≠ "true")
    (ht : env.ghPatAgent = none) :
    create_issue_from_jira_start env = .raisedTypeError ∧
    (∀ env' : JiraEnv, create_issue_from_jira_start env' = .exitMissingToken →
      env'.ghPatAgent = some "") := by
  constructor
  · unfold create_issue_from_jira_start
    rw [hk, ht]
    simp [hk2, hd]
  · intro env' h
    unfold create_issue_from_jira_start at h
    rcases henv : env'.jiraIssueKey with _ | key'
    · rw [henv] at h
      simp at h
    · rw [henv] at h
      by_cases hkey : key' = ""
      · simp [hkey] at h
      · by_cases hdry : pyLower (env'.dryRun.getD "false") = "true"
        · simp [hkey, hdry] at h
        · simp only [if_neg hkey, if_neg hdry] at h
          rcases htok : env'.ghPatAgent with _ | tok
          · rw [htok] at h
            simp at h
          · rw [htok] at h
            rcases hrepo : env'.githubRepository with _ | repoName
            · rw [hrepo] at h
              simp at h
            · rw [hrepo] at h
              by_cases h3 : tok = ""
              · rw [h3]
              · by_cases h4 : repoName = ""
                · simp [h3, h4] at h
                · simp [h3, h4] at h

/-- Witness for C10: a concrete environment with the key set, dry-run
off, and the token unset. -/
theorem missing_token_raises_before_check_witness :
    create_issue_from_jira_start jiraEnvNoToken = .raisedTypeError := by
  have h := missing_token_raises_before_check jiraEnvNoToken "SCRUM-7" rfl
    (by decide) (by decide) rfl
  exact h.1

/-- Every failure comment of the uploader names the local path. -/
theorem uploadFailedCommentBody_has_path (fn e fp : String) :
    containsSub (uploadFailedCommentBody fn e fp) fp = true := by
  unfold uploadFailedCommentBody
  apply containsSub_append_of_left
  apply containsSub_append_of_right
  exact containsSub_self fp

/-- Every failure comment of the uploader says the upload failed. -/
theorem uploadFailedCommentBody_has_failed (fn e fp : String) :
    containsSub (uploadFailedCommentBody fn e fp) "failed to upload" = true := by
  unfold uploadFailedCommentBody
  apply containsSub_append_of_left
  apply containsSub_append_of_left
  apply containsSub_append_of_left
  apply containsSub_append_of_left
  apply containsSub_append_of_right
  decide

/-- C2: `upload_attachment_to_repo_and_comment` is total (it always
returns one of its two boolean outcomes; no exception escapes), on every
failure at least one issue comment is attempted, and each attempted
comment is delivered exactly when the comment transport accepts it
(best-effort posting). -/
theorem upload_returns_result_and_comments (env : UploadEnv) (filepath jira_key : String) :
    ((upload_attachment_to_repo_and_comment env filepath jira_key).ok = false →
      (upload_attachment_to_repo_and_comment env filepath jira_key).comments ≠ []) ∧
    (∀ c ∈ (upload_attachment_to_repo_and_comment env filepath jira_key).comments,
      c.2 = env.commentOk c.1) := by
  unfold upload_attachment_to_repo_and_comment handleWriteFailure
  cases hB : ensureBranch env with
  | failComment body =>
    refine ⟨fun _ => by simp, ?_⟩
    intro c hc
    simp only [List.mem_singleton] at hc
    subst hc
    rfl
  | toOuter m =>
    refine ⟨fun _ => by simp, ?_⟩
    intro c hc
    simp only [List.mem_singleton] at hc
    subst hc
    rfl
  | proceed confirm =>
    cases hR : env.readLocal with
    | error e =>
      refine ⟨fun _ => by simp, ?_⟩
      intro c hc
      simp only [List.mem_singleton] at hc
      subst hc
      rfl
    | ok content =>
      cases hW : writeFile env with
      | okWrite =>
        refine ⟨fun _ => by simp, ?_⟩
        intro c hc
        simp only [List.mem_singleton] at hc
        subst hc
        rfl
      | failedWrite e =>
        dsimp only
        split_ifs with hg hr <;>
          (refine ⟨fun _ => by simp, ?_⟩
           intro c hc
           simp only [List.mem_singleton] at hc
           subst hc
           rfl)

/-- Witness for C2: a run whose first call raises returns a failure with
a delivered comment. -/
theorem upload_returns_result_and_comments_witness :
    (upload_attachment_to_repo_and_comment uploadEnvFirstCallRaises
      "attachments/pic.png" "PROJ-1").ok = false ∧
    (upload_attachment_to_repo_and_comment uploadEnvFirstCallRaises
      "attachments/pic.png" "PROJ-1").comments ≠ [] ∧
    (∀ c ∈ (upload_attachment_to_repo_and_comment uploadEnvFirstCallRaises
      "attachments/pic.png" "PROJ-1").comments,
      c.2 = uploadEnvFirstCallRaises.commentOk c.1) := by
  have h := upload_returns_result_and_comments uploadEnvFirstCallRaises
    "attachments/pic.png" "PROJ-1"
  exact ⟨rfl, h.1 rfl, h.2⟩

/-- C1 counterexample: with `GH_PAT_AGENT` unset, a primary-transport
file-write failure does not invoke the REST fallback (the gate at
main.py:242 is closed); the function still posts the failure comment and
returns a failure. -/
theorem upload_write_failure_no_fallback_without_token :
    writeFile uploadEnvNoToken = .failedWrite "server error" ∧
    (upload_attachment_to_repo_and_comment uploadEnvNoToken
      "attachments/pic.png" "PROJ-1").restInvoked = false ∧
    (upload_attachment_to_repo_and_comment uploadEnvNoToken
      "attachments/pic.png" "PROJ-1").ok = false := by
  refine ⟨rfl, rfl, rfl⟩

/-- C1 (amended): when `GH_PAT_AGENT` is set non-empty and the repo full
name is `owner/repo`-shaped, every primary-transport file-write failure
invokes the REST fallback; if the fallback also fails, the function posts
the issue comment naming the failure and the local file path (delivered
whenever the comment transport accepts it) and returns a failure outcome;
no exception escapes (the model is a total function). -/
theorem upload_write_failure_invokes_fallback (env : UploadEnv)
    (filepath jira_key t content e : String) (c : Bool)
    (ht : env.ghPatAgent = some t) (ht2 : t ≠ "")
    (hslash : containsSub env.repoFullName "/" = true)
    (hB : ensureBranch env = .proceed c)
    (hR : env.readLocal = .ok content)
    (hW : writeFile env = .failedWrite e) :
    (upload_attachment_to_repo_and_comment env filepath jira_key).restInvoked = true ∧
    ((create_branch_and_upload_via_api env.rest).1 = false →
      (upload_attachment_to_repo_and_comment env filepath jira_key).ok = false ∧
      (uploadFailedCommentBody (basename filepath) e filepath,
        env.commentOk (uploadFailedCommentBody (basename filepath) e filepath)) ∈
        (upload_attachment_to_repo_and_comment env filepath jira_key).comments ∧
      containsSub (uploadFailedCommentBody (basename filepath) e filepath) filepath = true ∧
      containsSub (uploadFailedCommentBody (basename filepath) e filepath)
        "failed to upload" = true) := by
  unfold upload_attachment_to_repo_and_comment handleWriteFailure
  rw [hB, hR, hW, ht]
  dsimp only
  constructor
  · split_ifs with hg hr
    · rfl
    · rfl
    · exfalso
      apply hg
      simp [ht2, hslash]
  · intro hfail
    split_ifs with hg hr
    · rw [hfail] at hr
      simp at hr
    · refine ⟨rfl, by simp, uploadFailedCommentBody_has_path _ _ _,
        uploadFailedCommentBody_has_failed _ _ _⟩
    · exfalso
      apply hg
      simp [ht2, hslash]

/-- Witness for C1 (amended): concrete run with a token, a failing write
and a failing REST fallback. -/
theorem upload_write_failure_invokes_fallback_witness :
    (upload_attachment_to_repo_and_comment uploadEnvWriteFailRestFail
      "attachments/pic.png" "PROJ-1").restInvoked = true ∧
    (upload_attachment_to_repo_and_comment uploadEnvWriteFailRestFail
      "attachments/pic.png" "PROJ-1").ok = false := by
  have h := upload_write_failure_invokes_fallback uploadEnvWriteFailRestFail
    "attachments/pic.png" "PROJ-1" "tok" "bytes" "server error" false rfl
    (by decide) (by decide) rfl rfl rfl
  exact ⟨h.1, (h.2 rfl).1⟩

/-- C3 counterexample: the REST fallback accepts the 422
"Reference already exists" conflict and proceeds to a successful upload
without issuing any branch-existence confirmation re-check, refuting the
claim that the re-check happens on both transports. -/
theorem rest_conflict_no_recheck :
    (create_branch_and_upload_via_api restConflictOk).1 = true ∧
    restConflictOk.createRefStatus = 422 ∧
    containsSub restConflictOk.createRefText "Reference already exists" = true ∧
    RestCall.getBranchCheck ∉ (create_branch_and_upload_via_api restConflictOk).2 := by
  refine ⟨rfl, rfl, rfl, by decide⟩

/-- C3 (amended): a 422 "Reference already exists" conflict during branch
creation is treated as success on both transports, not as a failure of
the upload — on the primary transport after a confirmation re-check of
the branch (the upload then proceeds and succeeds when the remaining
steps succeed); the REST fallback accepts the conflict and proceeds
without a re-check. -/
theorem branch_conflict_treated_as_success :
    (∀ (env : UploadEnv) (m sha msg filepath jira_key content : String),
      env.getBranchAttachments = .ghExc (some 404) m →
      env.getBranchDefault = .ok sha →
      env.createGitRef = .ghExc (some 422) msg →
      containsSub msg "Reference already exists" = true →
      env.getBranchConfirm = .ok () →
      env.readLocal = .ok content →
      writeFile env = .okWrite →
      (∀ b, env.commentOk b = true) →
      ensureBranch env = .proceed true ∧
      (upload_attachment_to_repo_and_comment env filepath jira_key).ok = true) ∧
    (∀ renv : RestEnv,
      renv.repoInfoStatus = 200 →
      renv.refGetStatus = 200 →
      renv.createRefStatus = 422 →
      containsSub renv.createRefText "Reference already exists" = true →
      (∃ content, renv.readLocal = .ok content) →
      renv.putStatus = 201 →
      (create_branch_and_upload_via_api renv).1 = true ∧
      RestCall.getBranchCheck ∉ (create_branch_and_upload_via_api renv).2) := by
  constructor
  · intro env m sha msg filepath jira_key content h1 h2 h3 h4 h5 hR hW hc
    have hEB : ensureBranch env = .proceed true := by
      unfold ensureBranch
      rw [h1, h2, h3, h5]
      simp [h4]
    refine ⟨hEB, ?_⟩
    unfold upload_attachment_to_repo_and_comment
    rw [hEB, hR, hW]
    exact hc _
  · intro renv hA hB hC hD hE hF
    obtain ⟨content, hcon⟩ := hE
    unfold create_branch_and_upload_via_api
    rw [hA, hB, hC, hcon, hF]
    constructor <;> simp [hD]

/-- Witness for C3 (amended): a concrete conflicted run on each
transport. -/
theorem branch_conflict_treated_as_success_witness :
    ensureBranch uploadEnvConflict = .proceed true ∧
    (upload_attachment_to_repo_and_comment uploadEnvConflict
      "attachments/pic.png" "PROJ-1").ok = true ∧
    (create_branch_and_upload_via_api restConflictOk).1 = true := by
  have h := branch_conflict_treated_as_success
  have h1 := h.1 uploadEnvConflict "Branch not found" "abc123"
    "Reference already exists" "attachments/pic.png" "PROJ-1" "bytes"
    rfl rfl rfl (containsSub_self _) rfl rfl rfl (fun _ => rfl)
  have h2 := h.2 restConflictOk rfl rfl rfl (containsSub_self _) ⟨"payload", rfl⟩ rfl
  exact ⟨h1.1, h1.2, h2.1⟩

/-- Helper: the `gh` CLI path of `create_issue_with_gh` returns only the
booleans. -/
theorem ghCliPath_shape (env : PublishEnv) :
    ghCliPath env = .vTrue ∨ ghCliPath env = .vFalse := by
  unfold ghCliPath
  split_ifs <;> simp

/-- Helper: `create_issue_with_gh` returns an issue object or a boolean,
never a string. -/
theorem create_issue_with_gh_shape (env : PublishEnv) :
    (∃ n, create_issue_with_gh env = .vIssue n) ∨
    create_issue_with_gh env = .vTrue ∨ create_issue_with_gh env = .vFalse := by
  unfold create_issue_with_gh
  split_ifs with h1
  · cases hc : env.createIssueViaPyGithub with
    | ok n => exact Or.inl ⟨n, rfl⟩
    | error e =>
      rcases ghCliPath_shape env with h | h
      · exact Or.inr (Or.inl h)
      · exact Or.inr (Or.inr h)
  · rcases ghCliPath_shape env with h | h
    · exact Or.inr (Or.inl h)
    · exact Or.inr (Or.inr h)

/-- C5 counterexample: with PyGithub creation failing and the CLI
succeeding (its output holding a parsable issue URL, and a structured
fetch that would succeed), `create_issue_with_gh` returns `True` — not
the output string — so no issue handle is recovered and all attachments
are skipped, refuting the claimed URL-parsing recovery. -/
theorem cli_success_yields_no_handle :
    create_issue_with_gh publishCliOnly = .vTrue ∧
    extractIssueNumber publishCliOnly.cliStdout = some 42 ∧
    normalizeCreated (create_issue_with_gh publishCliOnly) (fun n => some n) = none ∧
    attachmentsAttempted (create_issue_with_gh publishCliOnly) (fun n => some n)
      ["screenshot.png"] = [] := by
  refine ⟨rfl, rfl, rfl, rfl⟩

/-- C5 (amended): `create_issue_with_gh` never returns the CLI output
string (the CLI path returns `True`/`False`), so the URL-parsing
recovery branch of `create_issue_from_jira` — present in the code and
modelled here — is unreachable; whenever issue creation succeeds only
via the CLI fallback, no issue handle is recovered and attachments are
always skipped for the run. -/
theorem create_issue_with_gh_no_url_result (env : PublishEnv)
    (fetch : Nat → Option Nat) (downloaded : List String) :
    (∀ s, create_issue_with_gh env ≠ .vStr s) ∧
    (∀ u n, extractIssueNumber u = some n →
      normalizeCreated (.vStr u) fetch = fetch n) ∧
    ((∃ e, env.createIssueViaPyGithub = .error e) → env.authCheckRc = 0 →
      env.cliCreateRc = 0 →
      create_issue_with_gh env = .vTrue ∧
      normalizeCreated (create_issue_with_gh env) fetch = none ∧
      attachmentsAttempted (create_issue_with_gh env) fetch downloaded = []) := by
  refine ⟨?_, ?_, ?_⟩
  · intro s
    rcases create_issue_with_gh_shape env with ⟨n, h⟩ | h | h <;> (rw [h]; simp)
  · intro u n h
    simp [normalizeCreated, h]
  · rintro ⟨e, he⟩ ha hc
    have hcli : ghCliPath env = .vTrue := by
      unfold ghCliPath
      simp [ha, hc]
    have hcg : create_issue_with_gh env = .vTrue := by
      unfold create_issue_with_gh
      split_ifs with h1
      · rw [he]
        exact hcli
      · exact hcli
    refine ⟨hcg, ?_, ?_⟩
    · rw [hcg]
      rfl
    · rw [hcg]
      rfl

/-- Witness for C5 (amended): concrete evaluation on the CLI-only run. -/
theorem create_issue_with_gh_no_url_result_witness :
    create_issue_with_gh publishCliOnly ≠ .vStr "x" ∧
    create_issue_with_gh publishCliOnly = .vTrue ∧
    normalizeCreated (create_issue_with_gh publishCliOnly)
      (fun n => some n) = none ∧
    attachmentsAttempted (create_issue_with_gh publishCliOnly)
      (fun n => some n) ["a.png"] = [] := by
  have h := create_issue_with_gh_no_url_result publishCliOnly (fun n => some n) ["a.png"]
  have h3 := h.2.2 ⟨"API down", rfl⟩ rfl rfl
  exact ⟨h.1 "x", h3.1, h3.2.1, h3.2.2⟩

end DevRelease
